import Mathlib

/-!
Shallow embedding of the subreddit-health aggregation pipeline of the
rate-reddit repository: the HTTP route in src/app/api/subreddit-health/route.ts
(the caching variant) and the two earlier route variants embedded in
src/unnamed/part_000 and src/unnamed/part_001 (both non-caching; part_000
without the vibe summary, part_001 with it).

External effects - the Reddit post fetch, the classifier call, the
key/value cache, the vibe-summary call - are modelled by oracles passed in
through an environment record, and every function additionally returns the
list of outward calls it performed, in order.  JavaScript numbers are
modelled by exact rationals extended with NaN and the two infinities;
thrown JavaScript values travel on an Except error channel.
-/

namespace RateReddit

/-- JS substring test (String.prototype.includes) on char lists: scan for a
position where the pattern is a leading segment of the remaining text. -/
def listIncludes : List Char → List Char → Bool
  | [], pat => pat.isPrefixOf ([] : List Char)
  | h :: t, pat => if pat.isPrefixOf (h :: t) then true else listIncludes t pat

/-- JS s.includes(pat). -/
def includes (s pat : String) : Bool := listIncludes s.data pat.data

/-- JS s.toLowerCase() (ASCII-faithful). -/
def jsToLowerCase (s : String) : String := ⟨s.data.map Char.toLower⟩

/-- A JavaScript number that arises in this pipeline: an exact rational,
NaN, or an infinity. -/
inductive JSNum
  | nan
  | posInf
  | negInf
  | num (q : ℚ)
deriving DecidableEq, Repr

/-- Math.round on an exact rational: JS rounds half toward positive
infinity. -/
def jsRoundQ (q : ℚ) : ℤ := ⌊q + 1 / 2⌋

/-- JS division a / b on exact inputs: 0/0 is NaN, a/0 an infinity. -/
def jsDivQ (a b : ℚ) : JSNum :=
  if b = 0 then
    if a = 0 then .nan else if a > 0 then .posInf else .negInf
  else .num (a / b)

/-- Multiply a JS value by an exact rational constant. -/
def jsMul (x : JSNum) (c : ℚ) : JSNum :=
  match x with
  | .nan => .nan
  | .posInf => if c > 0 then .posInf else if c < 0 then .negInf else .nan
  | .negInf => if c > 0 then .negInf else if c < 0 then .posInf else .nan
  | .num q => .num (q * c)

/-- Math.round extended to NaN and infinities (returned unchanged). -/
def jsRound : JSNum → JSNum
  | .nan => .nan
  | .posInf => .posInf
  | .negInf => .negInf
  | .num q => .num ((jsRoundQ q : ℚ))

/-- JS comparison x > c; false whenever x is NaN. -/
def jsGtQ (x : JSNum) (c : ℚ) : Bool :=
  match x with
  | .nan => false
  | .posInf => true
  | .negInf => false
  | .num q => decide (q > c)

/-- A Reddit comment as consumed by the pipeline (interface Comment: the
body is optional). -/
structure Comment where
  body : Option String
deriving DecidableEq, Repr

/-- The per-post fields the aggregator reads from a fetched submission. -/
structure Post where
  id : String
  ups : ℚ
  upvote_ratio : ℚ
  num_comments : ℕ
deriving DecidableEq, Repr

/-- Per-post comment classification counts.  Fields are integers: neutral
is derived by subtraction and can go negative when the classifier marks
one comment with several categories. -/
structure CommentAnalysis where
  ridicule : ℤ
  constructive : ℤ
  toxic : ℤ
  neutral : ℤ
  total : ℤ
deriving DecidableEq, Repr

/-- One entry of the classifier structured-output comments array. -/
structure ClassifiedComment where
  constructive : Bool
  toxic : Bool
  mood : String
deriving DecidableEq, Repr

/-- A thrown JavaScript value, carrying the fields the catch blocks
inspect: optional message, optional statusCode, and whether the value is
an Error instance. -/
structure JSError where
  message : Option String
  statusCode : Option ℕ
  isErrorInstance : Bool
deriving DecidableEq, Repr

/-- JS errorObj.message?.includes(pat): false when the message is absent. -/
def msgIncludes (e : JSError) (pat : String) : Bool :=
  match e.message with
  | some m => includes m pat
  | none => false

/-- The ordering a post fetch requests: getHot, or getTop over a week. -/
inductive FetchKind
  | hot
  | topWeek
deriving DecidableEq, Repr

/-- Outward calls of one request, recorded in order. -/
inductive Effect
  | forumFetch (kind : FetchKind) (limit : ℕ)
  | expandReplies (postId : String) (limit : ℕ) (depth : ℕ)
  | classifierCall
  | vibeCall
  | cacheGet (key : String)
  | cacheSet (key : String) (ttl : ℕ)
deriving DecidableEq, Repr

/-- route.ts line 14. -/
def MAX_POSTS : ℕ := 15

/-- route.ts line 15 (10 in every variant). -/
def MAX_COMMENTS : ℕ := 10

/-- route.ts line 18: whole-report TTL, seconds. -/
def CACHE_TTL : ℕ := 30 * 60

/-- route.ts line 19: per-post analysis TTL, seconds. -/
def POST_CACHE_TTL : ℕ := 60 * 60

/-- src/unnamed/part_000 line 72: the non-caching variant without the vibe
summary also fetches 15 posts. -/
def v0_MAX_POSTS : ℕ := 15

/-- src/unnamed/part_001 line 430: the non-caching variant with the vibe
summary fetches 10 posts. -/
def v1_MAX_POSTS : ℕ := 10

/-- Abstract outcome of the generateText classifier call combined with the
JSON.parse of its response: the call throws; or it returns a string that
JSON.parse rejects; or parsing succeeds and the comments field of the
parsed value is either absent (this covers a null or empty response, which
the code replaces by an empty JSON object before parsing) or an array of
classified entries. -/
inductive ClassifierOutcome
  | exn (e : JSError)
  | malformedJson
  | json (commentsField : Option (List ClassifiedComment))
deriving DecidableEq, Repr

/-- Outcome of the vibe-summary generateText call. -/
inductive VibeOutcome
  | exn (e : JSError)
  | returns (resp : Option String)
deriving DecidableEq, Repr

/-- The ridicule keyword test of fallbackAnalysis, on the lowercased body. -/
def ridiculeHit (c : Comment) : Bool :=
  let text := jsToLowerCase (c.body.getD "")
  includes text "lol" || includes text "this is dumb"

/-- The constructive keyword test of fallbackAnalysis. -/
def constructiveHit (c : Comment) : Bool :=
  let text := jsToLowerCase (c.body.getD "")
  includes text "try" || includes text "suggest" || includes text "could"

/-- The toxic keyword test of fallbackAnalysis. -/
def toxicHit (c : Comment) : Bool :=
  let text := jsToLowerCase (c.body.getD "")
  includes text "idiot" || includes text "shut up"

/-- fallbackAnalysis (route.ts lines 279-306, identical in both earlier
variants): one pass over the comments incrementing the three counters,
neutral derived by subtraction, total the number of comments. -/
def fallbackAnalysis (comments : List Comment) : CommentAnalysis :=
  let counts := comments.foldl
    (fun (acc : ℤ × ℤ × ℤ) c =>
      (if ridiculeHit c then acc.1 + 1 else acc.1,
       if constructiveHit c then acc.2.1 + 1 else acc.2.1,
       if toxicHit c then acc.2.2 + 1 else acc.2.2))
    (0, 0, 0)
  ⟨counts.1, counts.2.1, counts.2.2,
    (comments.length : ℤ) - (counts.2.1 + counts.2.2 + counts.1),
    (comments.length : ℤ)⟩

/-- The all-zero analysis returned for an empty comment list. -/
def zeroAnalysis : CommentAnalysis := ⟨0, 0, 0, 0, 0⟩

/-- The TypeError raised by iterating a missing comments array. -/
def notIterableError : JSError :=
  ⟨some "analysisResults.comments is not iterable", none, true⟩

/-- analyzeComments (route.ts lines 180-277): an empty input
short-circuits to all zeros without any call; otherwise one classifier
call is made and its outcome decides the continuation.  Only a JSON.parse
failure of the response string reaches the keyword fallback - the
generateText call sits outside the try/catch, so a thrown call escapes,
and a parsed response without a comments array raises a TypeError after
the catch, which also escapes. -/
def analyzeComments (comments : List Comment) (outcome : ClassifierOutcome) :
    Except JSError CommentAnalysis × List Effect :=
  if comments.length = 0 then
    (.ok zeroAnalysis, [])
  else
    match outcome with
    | .exn e => (.error e, [.classifierCall])
    | .malformedJson => (.ok (fallbackAnalysis comments), [.classifierCall])
    | .json none => (.error notIterableError, [.classifierCall])
    | .json (some items) =>
      let constructive : ℤ := ((items.filter (fun a => a.constructive)).length : ℤ)
      let toxic : ℤ := ((items.filter (fun a => a.toxic)).length : ℤ)
      let ridicule : ℤ := ((items.filter (fun a => a.mood == "sarcastic")).length : ℤ)
      let neutral : ℤ := (comments.length : ℤ) - (constructive + toxic + ridicule)
      (.ok ⟨ridicule, constructive, toxic, neutral, (comments.length : ℤ)⟩,
        [.classifierCall])

/-- getOverallMood (route.ts lines 169-174), with the division performed
at JS semantics. -/
def getOverallMood (constructive toxic : ℤ) : String :=
  let ratio := jsDivQ (constructive : ℚ) ((toxic : ℚ) + 1)
  if jsGtQ ratio 3 then "supportive"
  else if jsGtQ ratio 1 then "mixed"
  else "hostile"

/-- Estimated total votes of one post (route.ts line 104). -/
def totalVotesOf (ups ratio : ℚ) : ℚ :=
  if ratio > 0 then ups / ratio else ups

/-- Estimated downvotes of one post (route.ts line 105). -/
def estimatedDownsOf (ups ratio : ℚ) : ℤ :=
  max 0 (jsRoundQ (totalVotesOf ups ratio - ups))

/-- The static sentence returned when the vibe call fails or returns an
empty response. -/
def fallbackVibe : String :=
  "This community shows typical engagement patterns for its size and topic focus."

/-- generateCommunityVibeSummary (route.ts lines 323-370): the whole call
sits in a try/catch, any throw or falsy response degrades to the static
sentence. -/
def generateCommunityVibeSummary (outcome : VibeOutcome) : String × List Effect :=
  match outcome with
  | .exn _ => (fallbackVibe, [.vibeCall])
  | .returns none => (fallbackVibe, [.vibeCall])
  | .returns (some s) => (if s = "" then fallbackVibe else s, [.vibeCall])

/-- Outcome of the post fetch (getTop or getHot). -/
inductive FetchResult
  | ok (posts : List Post)
  | err (e : JSError)
deriving DecidableEq, Repr

/-- The oracles standing for the external collaborators of one request:
what the single post fetch yields, which comments expandReplies returns
per post, how the classifier call per post behaves, and how the vibe call
behaves. -/
structure Env where
  fetchResult : FetchResult
  commentsOf : String → List Comment
  classifierOf : String → ClassifierOutcome
  vibeOutcome : VibeOutcome

/-- The numeric aggregate (the data object built in every variant). -/
structure HealthData where
  ignoredPercent : JSNum
  avgUpvotes : JSNum
  avgDownvotes : JSNum
  upvoteRatio : JSNum
  commentStats : CommentAnalysis
  overallMood : String
deriving DecidableEq, Repr

/-- The aggregate plus the vibe summary (returned by the caching variant
and by part_001). -/
structure HealthReport extends HealthData where
  vibeSummary : String
deriving DecidableEq, Repr

/-- The running accumulators of the per-post loop. -/
structure Acc where
  ignored : ℕ
  ridicule : ℤ
  constructive : ℤ
  toxic : ℤ
  neutral : ℤ
  totalComments : ℤ
  totalUpvotes : ℚ
  totalDownvotes : ℚ
deriving DecidableEq, Repr

/-- All accumulators start at zero. -/
def Acc.start : Acc := ⟨0, 0, 0, 0, 0, 0, 0, 0⟩

/-- One loop iteration folded into the accumulators: the ignored check,
the vote arithmetic, and the comment-stat sums (the neutral field is added
through a JS or-with-zero, which is the identity on integer counts). -/
def Acc.step (acc : Acc) (p : Post) (a : CommentAnalysis) : Acc :=
  ⟨if p.num_comments = 0 ∧ p.ups = 0 then acc.ignored + 1 else acc.ignored,
   acc.ridicule + a.ridicule,
   acc.constructive + a.constructive,
   acc.toxic + a.toxic,
   acc.neutral + a.neutral,
   acc.totalComments + a.total,
   acc.totalUpvotes + p.ups,
   acc.totalDownvotes + (estimatedDownsOf p.ups p.upvote_ratio : ℚ)⟩

/-- Write-through on the per-post analysis cache. -/
def kvSetAnalysis (kv : String → Option CommentAnalysis) (k : String)
    (v : CommentAnalysis) : String → Option CommentAnalysis :=
  fun k2 => if k2 = k then some v else kv k2

/-- The per-post loop of the caching variant (route.ts lines 97-140): vote
accounting, then a per-post comment-analysis cache lookup, computing and
caching on a miss.  Threads the post-analysis store and the effect trace;
an exception escaping analyzeComments aborts the loop.  The store key
space is split by its two prefixes, so the post-analysis entries are
modelled as their own map. -/
def processPosts (env : Env) :
    List Post → Acc → (String → Option CommentAnalysis) →
    Except JSError Acc × (String → Option CommentAnalysis) × List Effect
  | [], acc, kv => (.ok acc, kv, [])
  | p :: rest, acc, kv =>
    let key := "post_comments:" ++ p.id
    match kv key with
    | some a =>
      let r := processPosts env rest (acc.step p a) kv
      (r.1, r.2.1, Effect.cacheGet key :: r.2.2)
    | none =>
      let ar := analyzeComments (env.commentsOf p.id) (env.classifierOf p.id)
      match ar.1 with
      | .error e =>
        (.error e, kv,
          Effect.cacheGet key :: Effect.expandReplies p.id MAX_COMMENTS 1 :: ar.2)
      | .ok a =>
        let r := processPosts env rest (acc.step p a) (kvSetAnalysis kv key a)
        (r.1, r.2.1,
          Effect.cacheGet key :: Effect.expandReplies p.id MAX_COMMENTS 1 ::
            (ar.2 ++ Effect.cacheSet key POST_CACHE_TTL :: r.2.2))

/-- The per-post loop of the two non-caching variants (textually identical
in part_000 and part_001): comments are always expanded and classified. -/
def plainProcessPosts (env : Env) :
    List Post → Acc → Except JSError Acc × List Effect
  | [], acc => (.ok acc, [])
  | p :: rest, acc =>
    let ar := analyzeComments (env.commentsOf p.id) (env.classifierOf p.id)
    match ar.1 with
    | .error e =>
      (.error e, Effect.expandReplies p.id MAX_COMMENTS 1 :: ar.2)
    | .ok a =>
      let r := plainProcessPosts env rest (acc.step p a)
      (r.1, Effect.expandReplies p.id MAX_COMMENTS 1 :: (ar.2 ++ r.2))

/-- The data object every variant builds after its loop (route.ts lines
142-158): percentages at JS semantics, so a zero-length post list divides
zero by zero. -/
def buildHealthData (posts : List Post) (acc : Acc) : HealthData :=
  let len : ℚ := (posts.length : ℚ)
  ⟨jsRound (jsMul (jsDivQ (acc.ignored : ℚ) len) 100),
   jsRound (jsDivQ acc.totalUpvotes len),
   jsRound (jsDivQ acc.totalDownvotes len),
   if acc.totalUpvotes + acc.totalDownvotes > 0 then
     jsRound (jsMul (jsDivQ acc.totalUpvotes (acc.totalUpvotes + acc.totalDownvotes)) 100)
   else JSNum.num 0,
   ⟨acc.ridicule, acc.constructive, acc.toxic, acc.neutral, acc.totalComments⟩,
   getOverallMood acc.constructive acc.toxic⟩

/-- analyzeSubredditHealth (route.ts lines 64-167): fetch with the
filter-selected ordering, translating a not-found or forbidden signal into
the domain error and re-throwing anything else; then the per-post loop,
the aggregate, and the vibe summary. -/
def analyzeSubredditHealth (subreddit filter : String) (env : Env)
    (kvPosts : String → Option CommentAnalysis) :
    Except JSError HealthReport × (String → Option CommentAnalysis) × List Effect :=
  let fetchEff := if filter = "best" then Effect.forumFetch .topWeek MAX_POSTS
    else Effect.forumFetch .hot MAX_POSTS
  match env.fetchResult with
  | .err e =>
    if (e.statusCode == some 404) || msgIncludes e "404" || msgIncludes e "not found"
        || msgIncludes e "Forbidden" then
      (.error ⟨some ("Subreddit r/" ++ subreddit ++ " does not exist"), none, true⟩,
        kvPosts, [fetchEff])
    else
      (.error e, kvPosts, [fetchEff])
  | .ok posts =>
    let r := processPosts env posts Acc.start kvPosts
    match r.1 with
    | .error e => (.error e, r.2.1, fetchEff :: r.2.2)
    | .ok acc =>
      let v := generateCommunityVibeSummary env.vibeOutcome
      (.ok ⟨buildHealthData posts acc, v.1⟩, r.2.1, fetchEff :: (r.2.2 ++ v.2))

/-- The parsed JSON request body after destructuring: both fields may be
absent. -/
structure ReqBody where
  subreddit : Option String
  filter : Option String
deriving DecidableEq, Repr

/-- The response body: a full report (caching variant and part_001), the
bare aggregate (part_000), or an error object. -/
inductive RespBody
  | report (r : HealthReport)
  | data (d : HealthData)
  | errorMsg (msg : String)
deriving DecidableEq, Repr

/-- A NextResponse.json value: HTTP status plus JSON body. -/
structure Response where
  status : ℕ
  body : RespBody
deriving DecidableEq, Repr

/-- JS truthiness of the destructured subreddit value: absent or the empty
string is falsy. -/
def isTruthy : Option String → Bool
  | none => false
  | some s => decide (s ≠ "")

/-- The POST handler of the caching variant (route.ts lines 21-62).  The
await of the JSON body parse happens before the try/catch, so a parse
rejection escapes as an exception and produces no response; a missing
subreddit answers 400; a report-cache hit returns the stored payload
directly; otherwise the pipeline runs, its result is cached and returned,
and a thrown error maps to 404 when its message carries the domain marker,
else to 500. -/
def POST (parsedBody : Except JSError ReqBody) (env : Env)
    (kvReports : String → Option HealthReport)
    (kvPosts : String → Option CommentAnalysis) :
    Except JSError Response × List Effect :=
  match parsedBody with
  | .error e => (.error e, [])
  | .ok body =>
    if isTruthy body.subreddit = false then
      (.ok ⟨400, .errorMsg "Missing subreddit"⟩, [])
    else
      let subreddit := body.subreddit.getD ""
      let filter := body.filter.getD "hot"
      let cacheKey := "subreddit_health:" ++ subreddit ++ ":" ++ filter
      match kvReports cacheKey with
      | some cached =>
        (.ok ⟨200, .report cached⟩, [Effect.cacheGet cacheKey])
      | none =>
        let r := analyzeSubredditHealth subreddit filter env kvPosts
        match r.1 with
        | .ok result =>
          (.ok ⟨200, .report result⟩,
            Effect.cacheGet cacheKey :: (r.2.2 ++ [Effect.cacheSet cacheKey CACHE_TTL]))
        | .error e =>
          if e.isErrorInstance && msgIncludes e "does not exist" then
            (.ok ⟨404, .errorMsg (e.message.getD "")⟩, Effect.cacheGet cacheKey :: r.2.2)
          else
            (.ok ⟨500, .errorMsg "Failed to analyze subreddit"⟩,
              Effect.cacheGet cacheKey :: r.2.2)

/-- The POST handler of the non-caching variant with the vibe summary
(part_001 lines 433-522): no cache anywhere, and the single catch block
answers 500 for every thrown error - there is no 404 translation. -/
def v1_POST (parsedBody : Except JSError ReqBody) (env : Env) :
    Except JSError Response × List Effect :=
  match parsedBody with
  | .error e => (.error e, [])
  | .ok body =>
    if isTruthy body.subreddit = false then
      (.ok ⟨400, .errorMsg "Missing subreddit"⟩, [])
    else
      let filter := body.filter.getD "hot"
      let fetchEff := if filter = "best" then Effect.forumFetch .topWeek v1_MAX_POSTS
        else Effect.forumFetch .hot v1_MAX_POSTS
      match env.fetchResult with
      | .err _ =>
        (.ok ⟨500, .errorMsg "Failed to analyze subreddit"⟩, [fetchEff])
      | .ok posts =>
        let r := plainProcessPosts env posts Acc.start
        match r.1 with
        | .error _ =>
          (.ok ⟨500, .errorMsg "Failed to analyze subreddit"⟩, fetchEff :: r.2)
        | .ok acc =>
          let v := generateCommunityVibeSummary env.vibeOutcome
          (.ok ⟨200, .report ⟨buildHealthData posts acc, v.1⟩⟩,
            fetchEff :: (r.2 ++ v.2))

/-- The POST handler of the non-caching variant without the vibe summary
(part_000 lines 75-158): like part_001 but fetching 15 posts and
responding with the bare aggregate. -/
def v0_POST (parsedBody : Except JSError ReqBody) (env : Env) :
    Except JSError Response × List Effect :=
  match parsedBody with
  | .error e => (.error e, [])
  | .ok body =>
    if isTruthy body.subreddit = false then
      (.ok ⟨400, .errorMsg "Missing subreddit"⟩, [])
    else
      let filter := body.filter.getD "hot"
      let fetchEff := if filter = "best" then Effect.forumFetch .topWeek v0_MAX_POSTS
        else Effect.forumFetch .hot v0_MAX_POSTS
      match env.fetchResult with
      | .err _ =>
        (.ok ⟨500, .errorMsg "Failed to analyze subreddit"⟩, [fetchEff])
      | .ok posts =>
        let r := plainProcessPosts env posts Acc.start
        match r.1 with
        | .error _ =>
          (.ok ⟨500, .errorMsg "Failed to analyze subreddit"⟩, fetchEff :: r.2)
        | .ok acc =>
          (.ok ⟨200, .data (buildHealthData posts acc)⟩, fetchEff :: r.2)

/-- Reference definition of the keyword fallback, following the claim
wording: per comment lowercase the body (a missing body taken as the empty
string), count ridicule, constructive and toxic by the listed substring
tests, let total be the number of comments and neutral the difference
total minus the sum of the three counts. -/
def fallbackSpec (comments : List Comment) : CommentAnalysis :=
  ⟨(comments.countP ridiculeHit : ℤ),
   (comments.countP constructiveHit : ℤ),
   (comments.countP toxicHit : ℤ),
   (comments.length : ℤ) -
     ((comments.countP constructiveHit : ℤ) + (comments.countP toxicHit : ℤ)
       + (comments.countP ridiculeHit : ℤ)),
   (comments.length : ℤ)⟩

instance {ε α : Type} [DecidableEq ε] [DecidableEq α] : DecidableEq (Except ε α) :=
  fun x y =>
    match x, y with
    | .ok a, .ok b => decidable_of_iff (a = b) (by simp)
    | .error a, .error b => decidable_of_iff (a = b) (by simp)
    | .ok _, .error _ => isFalse (by simp)
    | .error _, .ok _ => isFalse (by simp)

/-- Environment with one post, one comment, and a classifier call that
throws. -/
def envThrow : Env :=
  ⟨.ok [⟨"p1", 10, 9 / 10, 5⟩],
   fun _ => [⟨some "hello"⟩],
   fun _ => .exn ⟨some "network down", none, true⟩,
   .returns none⟩

/-- Environment whose post fetch fails with a message carrying a 404
signal. -/
def envNotFound : Env :=
  ⟨.err ⟨some "Status 404 returned", none, false⟩,
   fun _ => [], fun _ => .json none, .returns none⟩

/-- Environment whose post fetch returns no posts at all. -/
def envNoPosts : Env :=
  ⟨.ok [], fun _ => [], fun _ => .json none, .returns none⟩

/-- Environment with a single post with 100 upvotes at upvote ratio 4/5
and no comments. -/
def envOnePost : Env :=
  ⟨.ok [⟨"p1", 100, 4 / 5, 3⟩], fun _ => [], fun _ => .json none, .returns none⟩

/-- Environment whose post fetch fails with a plain error carrying no
not-found signal. -/
def envBoom : Env :=
  ⟨.err ⟨some "boom", none, true⟩, fun _ => [], fun _ => .json none, .returns none⟩

/-- A sample cached report used to exercise the cache-hit path. -/
def sampleReport : HealthReport :=
  ⟨⟨.num 0, .num 0, .num 0, .num 0, ⟨0, 0, 0, 0, 0⟩, "hostile"⟩, "cached vibe"⟩

lemma fallback_foldl (cs : List Comment) (a b c : ℤ) :
    cs.foldl
      (fun (acc : ℤ × ℤ × ℤ) cm =>
        (if ridiculeHit cm then acc.1 + 1 else acc.1,
         if constructiveHit cm then acc.2.1 + 1 else acc.2.1,
         if toxicHit cm then acc.2.2 + 1 else acc.2.2)) (a, b, c)
    = (a + (cs.countP ridiculeHit : ℤ), b + (cs.countP constructiveHit : ℤ),
       c + (cs.countP toxicHit : ℤ)) := by
  induction cs generalizing a b c with
  | nil => simp
  | cons x t ih =>
    rw [List.foldl_cons, ih]
    simp only [List.countP_cons, Prod.mk.injEq]
    refine ⟨?_, ?_, ?_⟩ <;> split_ifs <;> push_cast <;> ring

/-- C8: the fallback classifier is a pure, deterministic function of the
comment bodies and coincides with the reference definition transcribed
from the claim: lowercase each body (missing body as empty), ridicule on
lol or this is dumb, constructive on try, suggest or could, toxic on idiot
or shut up, total the number of comments and neutral the subtractive
remainder. -/
theorem c8_fallback_matches_reference (comments : List Comment) :
    fallbackAnalysis comments = fallbackSpec comments := by
  unfold fallbackAnalysis fallbackSpec
  rw [fallback_foldl]
  simp

/-- C7: on the empty comment list analyzeComments returns the all-zero
analysis whatever the classifier oracle would do, and its effect trace is
empty - no classifier request is issued. -/
theorem c7_empty_comments_all_zero (outcome : ClassifierOutcome) :
    analyzeComments [] outcome = (.ok ⟨0, 0, 0, 0, 0⟩, []) := rfl

/-- C10: when the request body fails to parse as JSON, every variant of
the handler re-raises the rejection before entering its try/catch: the
result is the escaping exception, no HTTP response (no 400, 404 or 500
error body) and no outward call. -/
theorem c10_invalid_json_escapes (e : JSError) (env : Env)
    (kvReports : String → Option HealthReport)
    (kvPosts : String → Option CommentAnalysis) :
    POST (.error e) env kvReports kvPosts = (.error e, []) ∧
    v1_POST (.error e) env = (.error e, []) ∧
    v0_POST (.error e) env = (.error e, []) :=
  ⟨rfl, rfl, rfl⟩

/-- C4: for all non-negative counts, the overall mood is supportive
exactly when constructive / (toxic + 1) exceeds 3, mixed exactly when that
ratio lies in the half-open interval from 1 exclusive to 3 inclusive, and
hostile exactly when it is at most 1; in particular 4 constructive and 1
toxic give ratio 2 and mood mixed. -/
theorem c4_overall_mood_thresholds :
    (∀ c t : ℕ,
      (getOverallMood (c : ℤ) (t : ℤ) = "supportive" ↔
        3 < (c : ℚ) / ((t : ℚ) + 1)) ∧
      (getOverallMood (c : ℤ) (t : ℤ) = "mixed" ↔
        (1 < (c : ℚ) / ((t : ℚ) + 1) ∧ (c : ℚ) / ((t : ℚ) + 1) ≤ 3)) ∧
      (getOverallMood (c : ℤ) (t : ℤ) = "hostile" ↔
        (c : ℚ) / ((t : ℚ) + 1) ≤ 1)) ∧
    getOverallMood 4 1 = "mixed" := by
  constructor
  · intro c t
    have hden : (0 : ℚ) < ((t : ℕ) : ℚ) + 1 := by positivity
    simp only [getOverallMood, jsDivQ, jsGtQ, Int.cast_natCast]
    rw [if_neg hden.ne']
    simp only [decide_eq_true_eq]
    by_cases h3 : 3 < (c : ℚ) / ((t : ℚ) + 1)
    · rw [if_pos h3]
      exact ⟨iff_of_true rfl h3,
        iff_of_false (by decide) (by rintro ⟨-, hle⟩; linarith),
        iff_of_false (by decide) (by intro hle; linarith)⟩
    · rw [if_neg h3]
      by_cases h1 : 1 < (c : ℚ) / ((t : ℚ) + 1)
      · rw [if_pos h1]
        exact ⟨iff_of_false (by decide) h3,
          iff_of_true rfl ⟨h1, not_lt.mp h3⟩,
          iff_of_false (by decide) (by intro hle; linarith)⟩
      · rw [if_neg h1]
        exact ⟨iff_of_false (by decide) h3,
          iff_of_false (by decide) (fun hc => h1 hc.1),
          iff_of_true rfl (not_lt.mp h1)⟩
  · norm_num [getOverallMood, jsDivQ, jsGtQ]

lemma listIncludes_append (l1 l2 pat : List Char) (h : listIncludes l2 pat = true) :
    listIncludes (l1 ++ l2) pat = true := by
  induction l1 with
  | nil => simpa using h
  | cons a t ih =>
    simp only [List.cons_append, listIncludes]
    split
    · rfl
    · exact ih

lemma includes_append_right (a b pat : String) (h : includes b pat = true) :
    includes (a ++ b) pat = true := by
  unfold includes at h ⊢
  rw [String.data_append]
  exact listIncludes_append a.data b.data pat.data h

lemma domain_error_message_marker (s : String) :
    msgIncludes ⟨some ("Subreddit r/" ++ s ++ " does not exist"), none, true⟩
      "does not exist" = true := by
  unfold msgIncludes
  exact includes_append_right ("Subreddit r/" ++ s) " does not exist"
    "does not exist" (by decide)

/-- C1 counterexample: with one comment present, a classifier call that
throws is not degraded to the keyword fallback - analyzeComments re-raises
the exception, and at the handler boundary the request fails with the 500
error body. -/
theorem c1_counterexample :
    (analyzeComments [⟨some "hello"⟩] (.exn ⟨some "network down", none, true⟩)).1
      = .error ⟨some "network down", none, true⟩ ∧
    (analyzeComments [⟨some "hello"⟩] (.exn ⟨some "network down", none, true⟩)).1
      ≠ .ok (fallbackAnalysis [⟨some "hello"⟩]) ∧
    (POST (.ok ⟨some "test", some "hot"⟩) envThrow (fun _ => none) (fun _ => none)).1
      = .ok ⟨500, .errorMsg "Failed to analyze subreddit"⟩ :=
  ⟨rfl, by decide, by decide⟩

/-- C1 amended: for a non-empty comment list only a JSON.parse failure of
the classifier response reaches the deterministic keyword fallback; a
thrown classifier call re-raises the thrown value past analyzeComments,
and a parsed response without a comments array raises the iteration
TypeError, which also escapes. -/
theorem c1_fallback_only_on_parse_failure
    (comments : List Comment) (h : comments ≠ []) (e : JSError) :
    (analyzeComments comments .malformedJson).1 = .ok (fallbackAnalysis comments) ∧
    (analyzeComments comments (.exn e)).1 = .error e ∧
    (analyzeComments comments (.json none)).1 = .error notIterableError := by
  have hlen : ¬ comments.length = 0 := by simpa using h
  refine ⟨?_, ?_, ?_⟩ <;> simp [analyzeComments, hlen]

/-- C1 witness: the amended statement applied to a concrete one-comment
list. -/
theorem c1_witness :
    ([(⟨some "hello"⟩ : Comment)] ≠ []) ∧
    (analyzeComments [⟨some "hello"⟩] .malformedJson).1
      = .ok (fallbackAnalysis [⟨some "hello"⟩]) := by
  refine ⟨by decide, ?_⟩
  exact (c1_fallback_only_on_parse_failure [⟨some "hello"⟩] (by decide)
    ⟨none, none, true⟩).1

/-- C2: when the report cache misses and the subreddit fetch fails with a
not-found or forbidden signal (status code 404, or a message containing
404, not found or Forbidden), the caching handler answers HTTP 404 with
the error body naming the requested subreddit. -/
theorem c2_not_found_maps_to_404
    (s : String) (hs : s ≠ "") (filt : Option String) (env : Env) (e : JSError)
    (kvReports : String → Option HealthReport)
    (kvPosts : String → Option CommentAnalysis)
    (hfetch : env.fetchResult = .err e)
    (hsig : ((e.statusCode == some 404) || msgIncludes e "404"
      || msgIncludes e "not found" || msgIncludes e "Forbidden") = true)
    (hmiss : kvReports ("subreddit_health:" ++ s ++ ":" ++ filt.getD "hot") = none) :
    (POST (.ok ⟨some s, filt⟩) env kvReports kvPosts).1
      = .ok ⟨404, .errorMsg ("Subreddit r/" ++ s ++ " does not exist")⟩ := by
  have htruthy : isTruthy (some s) = true := by simp [isTruthy, hs]
  simp only [POST, htruthy, Bool.true_eq_false, if_false, Option.getD_some, hmiss,
    analyzeSubredditHealth, hfetch, hsig, if_true]
  simp [domain_error_message_marker s]

/-- C2 witness: the 404 mapping exercised on the concrete subreddit
missing with a fetch error whose message contains 404. -/
theorem c2_witness :
    ("missing" : String) ≠ "" ∧
    envNotFound.fetchResult = .err ⟨some "Status 404 returned", none, false⟩ ∧
    (((( ⟨some "Status 404 returned", none, false⟩ : JSError).statusCode == some 404)
      || msgIncludes ⟨some "Status 404 returned", none, false⟩ "404"
      || msgIncludes ⟨some "Status 404 returned", none, false⟩ "not found"
      || msgIncludes ⟨some "Status 404 returned", none, false⟩ "Forbidden") = true) ∧
    (POST (.ok ⟨some "missing", some "hot"⟩) envNotFound
        (fun _ => none) (fun _ => none)).1
      = .ok ⟨404, .errorMsg ("Subreddit r/" ++ "missing" ++ " does not exist")⟩ := by
  refine ⟨by decide, rfl, by decide, ?_⟩
  exact c2_not_found_maps_to_404 "missing" (by decide) (some "hot") envNotFound
    ⟨some "Status 404 returned", none, false⟩ (fun _ => none) (fun _ => none)
    rfl (by decide) rfl

/-- C5: on a report-cache hit the caching handler returns the stored
payload verbatim - vibe summary included - with status 200, and its whole
effect trace is the single cache read: no forum fetch, no classifier call,
no vibe regeneration, no cache write. -/
theorem c5_cache_hit_is_pure_replay
    (s : String) (hs : s ≠ "") (filt : Option String) (env : Env)
    (kvReports : String → Option HealthReport)
    (kvPosts : String → Option CommentAnalysis) (r : HealthReport)
    (hhit : kvReports ("subreddit_health:" ++ s ++ ":" ++ filt.getD "hot") = some r) :
    POST (.ok ⟨some s, filt⟩) env kvReports kvPosts
      = (.ok ⟨200, .report r⟩,
         [Effect.cacheGet ("subreddit_health:" ++ s ++ ":" ++ filt.getD "hot")]) := by
  have htruthy : isTruthy (some s) = true := by simp [isTruthy, hs]
  simp [POST, htruthy, hhit]

/-- C5 witness: the cache-hit replay at a concrete key holding a concrete
report. -/
theorem c5_witness :
    POST (.ok ⟨some "test", some "best"⟩) envThrow
      (fun k => if k = "subreddit_health:test:best" then some sampleReport else none)
      (fun _ => none)
      = (.ok ⟨200, .report sampleReport⟩,
         [Effect.cacheGet ("subreddit_health:" ++ "test" ++ ":"
            ++ (some "best").getD "hot")]) :=
  c5_cache_hit_is_pure_replay "test" (by decide) (some "best") envThrow
    (fun k => if k = "subreddit_health:test:best" then some sampleReport else none)
    (fun _ => none) sampleReport (by rfl)

/-- C3 failing input: when the fetch returns zero posts, the aggregate is
still produced, but ignoredPercent and avgUpvotes (and avgDownvotes) are
the JS value NaN of the division zero by zero - not the integer 0 the
claim requires; only upvoteRatio is guarded to 0. -/
theorem c3_zero_posts_nan :
    (analyzeSubredditHealth "test" "hot" envNoPosts (fun _ => none)).1
      = .ok ⟨⟨.nan, .nan, .nan, .num 0, ⟨0, 0, 0, 0, 0⟩, "hostile"⟩, fallbackVibe⟩ := by
  norm_num [analyzeSubredditHealth, envNoPosts, processPosts, Acc.start,
    buildHealthData, jsDivQ, jsMul, jsRound, getOverallMood, jsGtQ,
    generateCommunityVibeSummary]

/-- C6: per post the estimated total votes are upvotes divided by the
upvote ratio when the ratio is positive and the raw upvotes otherwise, and
the estimated downvotes are the rounded difference clamped at zero; the
single post with 100 upvotes at ratio 4/5 yields exactly 25 estimated
downvotes, and through the whole pipeline an average of 25 downvotes and
an 80 percent aggregate upvote ratio. -/
theorem c6_downvote_estimation :
    (∀ ups ratio : ℚ, totalVotesOf ups ratio = if ratio > 0 then ups / ratio else ups) ∧
    (∀ ups ratio : ℚ,
      estimatedDownsOf ups ratio = max 0 (jsRoundQ (totalVotesOf ups ratio - ups))) ∧
    estimatedDownsOf 100 (4 / 5) = 25 ∧
    (analyzeSubredditHealth "test" "hot" envOnePost (fun _ => none)).1
      = .ok ⟨⟨.num 0, .num 100, .num 25, .num 80, ⟨0, 0, 0, 0, 0⟩, "hostile"⟩,
          fallbackVibe⟩ := by
  refine ⟨fun _ _ => rfl, fun _ _ => rfl, ?_, ?_⟩
  · norm_num [estimatedDownsOf, totalVotesOf, jsRoundQ]
  · norm_num [analyzeSubredditHealth, envOnePost, processPosts, Acc.start, Acc.step,
      analyzeComments, zeroAnalysis, kvSetAnalysis, estimatedDownsOf, totalVotesOf,
      jsRoundQ, buildHealthData, jsDivQ, jsMul, jsRound, getOverallMood, jsGtQ,
      generateCommunityVibeSummary]

lemma analyzeSubredditHealth_trace_head (s f : String) (env : Env)
    (kvPosts : String → Option CommentAnalysis) :
    ∃ rest, (analyzeSubredditHealth s f env kvPosts).2.2
      = (if f = "best" then Effect.forumFetch .topWeek MAX_POSTS
         else Effect.forumFetch .hot MAX_POSTS) :: rest := by
  unfold analyzeSubredditHealth
  cases henv : env.fetchResult with
  | err e =>
    by_cases hsig : ((e.statusCode == some 404) || msgIncludes e "404"
      || msgIncludes e "not found" || msgIncludes e "Forbidden") = true
    · exact ⟨[], by simp [hsig]⟩
    · exact ⟨[], by simp [hsig]⟩
  | ok posts =>
    cases hres : (processPosts env posts Acc.start kvPosts).1 with
    | error e => exact ⟨(processPosts env posts Acc.start kvPosts).2.2, by simp [hres]⟩
    | ok acc =>
      exact ⟨(processPosts env posts Acc.start kvPosts).2.2
        ++ (generateCommunityVibeSummary env.vibeOutcome).2, by simp [hres]⟩

/-- C9 counterexample: the repository contains a non-caching route variant
(part_000) whose MAX_POSTS is 15, not 10 - on a concrete request it
issues a hot fetch with limit 15 and touches no cache at all. -/
theorem c9_counterexample :
    v0_POST (.ok ⟨some "test", none⟩) envBoom
      = (.ok ⟨500, .errorMsg "Failed to analyze subreddit"⟩,
         [Effect.forumFetch .hot 15]) ∧
    v0_MAX_POSTS = 15 ∧ (15 : ℕ) ≠ 10 :=
  ⟨by decide, rfl, by decide⟩

/-- C9 amended: on a report-cache miss the caching handler fetches up to
15 posts; the non-caching variant with the vibe summary (part_001) fetches
up to 10 and the non-caching variant without it (part_000) up to 15; in
every variant the ordering is weekly top exactly when the filter is best
and hot otherwise. -/
theorem c9_fetch_request_shapes
    (s : String) (hs : s ≠ "") (filt : Option String) (env : Env)
    (kvReports : String → Option HealthReport)
    (kvPosts : String → Option CommentAnalysis)
    (hmiss : kvReports ("subreddit_health:" ++ s ++ ":" ++ filt.getD "hot") = none) :
    ((POST (.ok ⟨some s, filt⟩) env kvReports kvPosts).2.take 2
      = [Effect.cacheGet ("subreddit_health:" ++ s ++ ":" ++ filt.getD "hot"),
         if filt.getD "hot" = "best" then Effect.forumFetch .topWeek 15
         else Effect.forumFetch .hot 15]) ∧
    ((v1_POST (.ok ⟨some s, filt⟩) env).2.take 1
      = [if filt.getD "hot" = "best" then Effect.forumFetch .topWeek 10
         else Effect.forumFetch .hot 10]) ∧
    ((v0_POST (.ok ⟨some s, filt⟩) env).2.take 1
      = [if filt.getD "hot" = "best" then Effect.forumFetch .topWeek 15
         else Effect.forumFetch .hot 15]) := by
  have htruthy : isTruthy (some s) = true := by simp [isTruthy, hs]
  obtain ⟨rest, hrest⟩ :=
    analyzeSubredditHealth_trace_head s (filt.getD "hot") env kvPosts
  refine ⟨?_, ?_, ?_⟩
  · simp only [POST, htruthy, Bool.true_eq_false, if_false, Option.getD_some, hmiss]
    cases hres : (analyzeSubredditHealth s (filt.getD "hot") env kvPosts).1 with
    | ok result => simp [hres, hrest, MAX_POSTS]
    | error e =>
      by_cases hmark : (e.isErrorInstance && msgIncludes e "does not exist") = true
      · simp [hres, hmark, hrest, MAX_POSTS]
      · simp [hres, hmark, hrest, MAX_POSTS]
  · simp only [v1_POST, htruthy, Bool.true_eq_false, if_false, Option.getD_some]
    cases henv : env.fetchResult with
    | err e => simp [v1_MAX_POSTS]
    | ok posts =>
      cases hres : (plainProcessPosts env posts Acc.start).1 with
      | error e => simp [hres, v1_MAX_POSTS]
      | ok acc => simp [hres, v1_MAX_POSTS]
  · simp only [v0_POST, htruthy, Bool.true_eq_false, if_false, Option.getD_some]
    cases henv : env.fetchResult with
    | err e => simp [v0_MAX_POSTS]
    | ok posts =>
      cases hres : (plainProcessPosts env posts Acc.start).1 with
      | error e => simp [hres, v0_MAX_POSTS]
      | ok acc => simp [hres, v0_MAX_POSTS]

/-- C9 witness: the amended statement applied to a concrete request with
filter best and an empty report cache. -/
theorem c9_witness :
    (POST (.ok ⟨some "test", some "best"⟩) envBoom
        (fun _ => none) (fun _ => none)).2.take 2
      = [Effect.cacheGet ("subreddit_health:" ++ "test" ++ ":"
           ++ (some "best").getD "hot"),
         if (some "best").getD "hot" = "best" then Effect.forumFetch .topWeek 15
         else Effect.forumFetch .hot 15] :=
  (c9_fetch_request_shapes "test" (by decide) (some "best") envBoom
    (fun _ => none) (fun _ => none) rfl).1

end RateReddit
